import Mathlib

/-!
Verification of the lead-intake / task-polling / message-dispatch pipeline
of api-arduus-db.

The definitions below are a shallow embedding of the Python sources:
  * `main.py`                          — the `/submit-form/` endpoint
    (`clean_whatsapp_number`, the WhatsApp regex check, the duplicate-lead
    short circuit, the Sales Builder kickoff and the queue statuses),
  * `sales_builder_status_checker.py`  — `SalesBuilderStatusChecker`
    (`check_task_status`, `process_task_response`, `check_and_process_task`)
    and the module-level `process_sales_builder_task`.

External I/O is made explicit:
  * every HTTP probe of the Sales Builder status endpoint is one element of a
    `List Probe` (the outcome the `httpx` call would have produced);
  * the Evolution-API gateway is a function `gw : Nat → Bool` giving the
    success/failure of the n-th `send_text_message` invocation;
  * MongoDB writes are recorded as effect lists (status updates in order,
    stored message fields, chat-history inserts) instead of being performed.

Python dict-truthiness is modelled with `Option` (`none` = key absent, `None`
or an empty/falsy value) and with explicit `≠ ""` checks for strings.
Python `str.isdigit` / the regex classes `\d`, `\D` are modelled over the
ASCII digits, which is exact for the phone-number data the code handles.
-/

namespace Arduus

/-- ASCII decimal digit, the model of the regex class `\d`. -/
def isAsciiDigit (c : Char) : Bool :=
  '0' ≤ c && c ≤ '9'

/-- `main.py` `clean_whatsapp_number`: `re.sub(r'\D', '', number)` — drop every
non-digit character.  The same expression is inlined in
`process_task_response` (`sales_builder_status_checker.py` line 693). -/
def clean_whatsapp_number (number : String) : String :=
  ⟨number.data.filter isAsciiDigit⟩

/-- Python `str.isdigit()`: true iff the string is non-empty and every
character is a digit. -/
def pyIsDigit (s : String) : Bool :=
  !s.data.isEmpty && s.data.all isAsciiDigit

/-- The intake validation regex `^[1-9]\d{1,14}$` of `main.py` line 487
(`re.match` with both anchors, applied to the cleaned number): one leading
digit `1`-`9` followed by 1 to 14 further digits. -/
def matches_whatsapp_regex (s : String) : Bool :=
  match s.data with
  | [] => false
  | c :: rest =>
      ('1' ≤ c && c ≤ '9') && (1 ≤ rest.length && rest.length ≤ 14)
        && rest.all isAsciiDigit

example : clean_whatsapp_number "+55 11 98765-4321" = "5511987654321" := by decide
example : matches_whatsapp_regex "5511987654321" = true := by decide
example : matches_whatsapp_regex "0123" = false := by decide
example : pyIsDigit "" = false := by decide

/-! ## Task Status Source payloads -/

/-- The `result` object of a Sales Builder status payload
(`body.result` in the JSON).  Only the fields the control flow reads are
kept; `none` / `[]` stand for an absent **or falsy** JSON value, mirroring
the `in`-plus-truthiness checks of the Python code. -/
structure SBResult where
  whatsapp_prospect : Option String
  msg_resposta : List String
deriving DecidableEq, Repr

/-- The JSON body of one 200 response from `GET /status/{task_id}`. -/
structure ResponseBody where
  task_id : Option String
  result : Option SBResult
deriving DecidableEq, Repr

/-- The outcome of one `self.client.get(url)` probe inside
`check_task_status`: an HTTP response with a status code and parsed body, or
one of the three exception classes the code catches. -/
inductive Probe where
  | http (statusCode : Nat) (body : ResponseBody)
  | timeout
  | requestError (msg : String)
  | exn (msg : String)
deriving DecidableEq, Repr

/-- The dict `check_task_status` hands to its caller: either the parsed
response body with a `status_code` key added, or an error dict
`{"error": ..., "task_id": ...}`.  `fallback_messages_used` models the key
that `process_task_response` may add later (absent = `false`). -/
structure TaskData where
  error : Option String
  task_id : Option String
  result : Option SBResult
  status_code : Option Nat
  fallback_messages_used : Bool
deriving DecidableEq, Repr

/-- A 200 response body returned to the caller with `status_code` added
(`response_data["status_code"] = response.status_code`). -/
def okData (b : ResponseBody) (code : Nat) : TaskData :=
  { error := none, task_id := b.task_id, result := b.result
    status_code := some code, fallback_messages_used := false }

/-- An error dict `{"error": msg, "task_id": task_id}`. -/
def errData (msg taskId : String) : TaskData :=
  { error := some msg, task_id := some taskId, result := none
    status_code := none, fallback_messages_used := false }

/-- The `has_messages` test of `check_task_status` lines 313-316:
`"result" in response_data and response_data["result"]` and
`"msg_resposta" in ... and ...` (truthiness = non-empty list). -/
def hasMessages (b : ResponseBody) : Bool :=
  match b.result with
  | some r => !r.msg_resposta.isEmpty
  | none => false

/-! ## `check_task_status` -/

/-- What one call of `check_task_status` did: `result = none` means the
probe stream ran out while the `while` loop was still running (the real
coroutine would still be awaiting further probes — it has **not**
returned); `probes` counts the `client.get` calls consumed, `sleeps` the
`asyncio.sleep(self.retry_delay)` waits taken, `retries` the final value of
the `retries` counter. -/
structure PollTrace where
  result : Option TaskData
  probes : Nat
  sleeps : Nat
  retries : Nat
deriving DecidableEq, Repr

/-- The `while retries < self.max_retries` loop of `check_task_status`
(`sales_builder_status_checker.py` lines 279-496), one probe consumed per
iteration.  Branches, in source order:
  * 200 with messages              → return body + status_code;
  * 200 without messages           → `retries += 1`; if the budget is hit
    return the (empty) body + status_code, else sleep and loop;
  * 403                            → return the authorization error dict;
  * any other status               → log only: **no** `retries` increment,
    **no** sleep, loop again (lines 378-396);
  * timeout / request error / exception → `retries += 1`; sleep and loop
    while `retries < max_retries`, else return the matching error dict.
The trace of a run that hits the loop-exit line 496 (the `while` condition
`retries < max_retries` failed before a probe, so the function falls through
to the safety `return` after the loop) is `budgetExhausted`. -/
def budgetExhausted (taskId : String) (probes sleeps retries : Nat) : PollTrace :=
  { result := some (errData
      "Falha ao verificar status da task após múltiplas tentativas" taskId)
    probes := probes, sleeps := sleeps, retries := retries }

/-- The loop of `check_task_status`, one equation per head probe; the
budget check at the start of every equation is the `while` condition
evaluated at the top of each iteration. -/
def check_task_status_aux (taskId : String) (maxRetries : Nat) :
    List Probe → Nat → Nat → Nat → PollTrace
  | [], retries, probes, sleeps =>
    if maxRetries ≤ retries then budgetExhausted taskId probes sleeps retries
    else { result := none, probes := probes, sleeps := sleeps, retries := retries }
  | Probe.http code body :: rest, retries, probes, sleeps =>
    if maxRetries ≤ retries then budgetExhausted taskId probes sleeps retries
    else if code = 200 then
      if hasMessages body then
        { result := some (okData body 200)
          probes := probes + 1, sleeps := sleeps, retries := retries }
      else if maxRetries ≤ retries + 1 then
        { result := some (okData body 200)
          probes := probes + 1, sleeps := sleeps, retries := retries + 1 }
      else
        check_task_status_aux taskId maxRetries rest (retries + 1) (probes + 1) (sleeps + 1)
    else if code = 403 then
      { result := some (errData "403: Erro de autorização" taskId)
        probes := probes + 1, sleeps := sleeps, retries := retries }
    else
      check_task_status_aux taskId maxRetries rest retries (probes + 1) sleeps
  | Probe.timeout :: rest, retries, probes, sleeps =>
    if maxRetries ≤ retries then budgetExhausted taskId probes sleeps retries
    else if retries + 1 < maxRetries then
      check_task_status_aux taskId maxRetries rest (retries + 1) (probes + 1) (sleeps + 1)
    else
      { result := some (errData "Timeout ao verificar status da task" taskId)
        probes := probes + 1, sleeps := sleeps, retries := retries + 1 }
  | Probe.requestError e :: rest, retries, probes, sleeps =>
    if maxRetries ≤ retries then budgetExhausted taskId probes sleeps retries
    else if retries + 1 < maxRetries then
      check_task_status_aux taskId maxRetries rest (retries + 1) (probes + 1) (sleeps + 1)
    else
      { result := some (errData ("Erro de requisição: " ++ e) taskId)
        probes := probes + 1, sleeps := sleeps, retries := retries + 1 }
  | Probe.exn e :: rest, retries, probes, sleeps =>
    if maxRetries ≤ retries then budgetExhausted taskId probes sleeps retries
    else if retries + 1 < maxRetries then
      check_task_status_aux taskId maxRetries rest (retries + 1) (probes + 1) (sleeps + 1)
    else
      { result := some (errData ("Exceção: " ++ e) taskId)
        probes := probes + 1, sleeps := sleeps, retries := retries + 1 }

/-- `SalesBuilderStatusChecker.check_task_status(task_id)`, driven by the
finite prefix `stream` of probe outcomes the status source would produce. -/
def check_task_status (taskId : String) (maxRetries : Nat) (stream : List Probe) : PollTrace :=
  check_task_status_aux taskId maxRetries stream 0 0 0

example :
    check_task_status "t" 3 [Probe.http 200 ⟨some "t", some ⟨some "55", ["m"]⟩⟩] =
      { result := some (okData ⟨some "t", some ⟨some "55", ["m"]⟩⟩ 200)
        probes := 1, sleeps := 0, retries := 0 } := by decide

example :
    check_task_status "t" 2
      [Probe.http 200 ⟨some "t", some ⟨some "55", []⟩⟩,
       Probe.http 200 ⟨some "t", some ⟨some "55", []⟩⟩] =
      { result := some (okData ⟨some "t", some ⟨some "55", []⟩⟩ 200)
        probes := 2, sleeps := 1, retries := 2 } := by decide

example :
    check_task_status "t" 20 [Probe.http 403 ⟨some "t", none⟩] =
      { result := some (errData "403: Erro de autorização" "t")
        probes := 1, sleeps := 0, retries := 0 } := by decide

example :
    check_task_status "t" 2 (List.replicate 50 (Probe.http 500 ⟨none, none⟩)) =
      { result := none, probes := 50, sleeps := 0, retries := 0 } := by decide

/-! ## `process_task_response` (the Dispatch Pipeline) -/

/-- The fixed two-message fallback script of `process_task_response`
lines 669-672. -/
def fallback_messages : List String :=
  ["Oi, tudo bem? Aqui é o Vagner Campos, fundador da Arduus. Vi seu interesse em inovação e transformação digital no LinkedIn, especialmente na área de IA.",
   "Percebi que você entrou em contato conosco para conhecer mais sobre nossas soluções de IA generativa. Gostaria de saber mais sobre como podemos impulsionar sua transformação digital?"]

/-- The per-message send loop of `process_task_response` lines 707-734.
`gw n` is the success of the n-th actual `send_text_message` call (`false`
= the gateway returned a `{"status": "error"}` dict).  Falsy entries
(`if message and isinstance(message, str)`) are skipped without touching
the gateway.  Returns (attempted sends, chat-history inserts, the
`all_messages_sent_successfully` flag). -/
def send_loop (gw : Nat → Bool) (w : String) :
    List String → Nat → List (String × String) × List (String × String) × Bool
  | [], _ => ([], [], true)
  | m :: rest, k =>
    if m = "" then send_loop gw w rest k
    else
      let ok := gw k
      let r := send_loop gw w rest (k + 1)
      ((w, m) :: r.1, (if ok then (w, m) :: r.2.1 else r.2.1), ok && r.2.2)

/-- What one `process_task_response(task_data)` call did. -/
structure DispatchResult where
  ok : Bool
  sendsAttempted : List (String × String)
  history : List (String × String)
  fallbackUsed : Bool
  taskDataAfter : TaskData
deriving Repr

/-- `SalesBuilderStatusChecker.process_task_response`
(`sales_builder_status_checker.py` lines 628-752).  Checks, in source
order: error key; `evo_api.is_configured`; truthiness of `task_id` and
`result`; the 200-with-empty-list fallback substitution (which mutates the
in-memory `task_data` only); empty message list; truthiness of
`whatsapp_prospect`; `isdigit`-or-strip recipient normalization; then the
send loop. -/
def process_task_response (isConfigured : Bool) (gw : Nat → Bool) (td : TaskData) :
    DispatchResult :=
  if td.error.isSome then ⟨false, [], [], false, td⟩
  else if !isConfigured then ⟨false, [], [], false, td⟩
  else
    match td.task_id, td.result with
    | some tid, some r =>
      if tid = "" then ⟨false, [], [], false, td⟩
      else
        let messages := r.msg_resposta
        if td.status_code = some 200 ∧ messages = [] then
          -- fallback: substitute the fixed script and flag the in-memory dict
          let td' : TaskData :=
            { td with result := some { r with msg_resposta := fallback_messages }
                      fallback_messages_used := true }
          dispatchSend gw r.whatsapp_prospect fallback_messages true td'
        else if messages = [] then ⟨false, [], [], false, td⟩
        else dispatchSend gw r.whatsapp_prospect messages false td
    | _, _ => ⟨false, [], [], false, td⟩
where
  /-- recipient check + normalization + send loop (lines 683-744) -/
  dispatchSend (gw : Nat → Bool) (whatsapp : Option String)
      (messages : List String) (fb : Bool) (td : TaskData) : DispatchResult :=
    match whatsapp with
    | none => ⟨false, [], [], fb, td⟩
    | some w0 =>
      if w0 = "" then ⟨false, [], [], fb, td⟩
      else
        let w := if pyIsDigit w0 then w0 else clean_whatsapp_number w0
        if !pyIsDigit w then ⟨false, [], [], fb, td⟩
        else
          let r := send_loop gw w messages 0
          ⟨r.2.2, r.1, r.2.1, fb, td⟩

example :
    (process_task_response true (fun _ => true)
      (okData ⟨some "t", some ⟨some "5524999887888", ["a", "b"]⟩⟩ 200)).sendsAttempted =
      [("5524999887888", "a"), ("5524999887888", "b")] := by decide

set_option maxRecDepth 8000 in
example :
    (process_task_response true (fun _ => true)
      (okData ⟨some "t", some ⟨some "5511999999999", []⟩⟩ 200)).sendsAttempted =
      fallback_messages.map (fun m => ("5511999999999", m)) := by decide

example :
    (process_task_response true (fun _ => true)
      (okData ⟨some "t", some ⟨some "abc", ["a"]⟩⟩ 200)).sendsAttempted = [] := by decide

/-! ## `check_and_process_task` and `process_sales_builder_task` -/

/-- Python `needle in haystack` on strings (used for `"403" in error`). -/
def strContains (hay sub : String) : Bool :=
  go sub.data hay.data
where
  go (needle : List Char) : List Char → Bool
    | [] => needle.isEmpty
    | c :: t => needle.isPrefixOf (c :: t) || go needle t

example : strContains "403: Erro de autorização" "403" = true := by decide
example : strContains "Timeout ao verificar status da task" "403" = false := by decide

/-- Python truthiness of an optional string (`if alt_api_key:`). -/
def optTruthy : Option String → Bool
  | none => false
  | some s => s ≠ ""

/-- One `$set status` write if the request-queue handle is available. -/
def statusIf (hasQueue : Bool) (s : String) : List String :=
  if hasQueue then [s] else []

/-- Everything one `check_and_process_task` (or the `process_sales_builder_task`
wrapper) run did to the outside world.  `statusUpdates` is the ordered list of
values written to the Request Record's `status` field, `storedMessages` the
`messages`/`message_count` fields if they were set, `checkCalls` the number of
`check_task_status` invocations, `refreshes` the number of API-key refreshes,
`diverged = true` when a `check_task_status` call never returned (its probe
stream was exhausted mid-loop), `returned` the boolean result. -/
structure PipelineEffects where
  statusUpdates : List String
  storedMessages : Option (List String × Nat)
  sendsAttempted : List (String × String)
  history : List (String × String)
  checkCalls : Nat
  refreshes : Nat
  apiKeyAfter : String
  fallbackUsedInMemory : Bool
  diverged : Bool
  returned : Bool
deriving DecidableEq, Repr

/-- Effects of a run whose pending `check_task_status` call never returns. -/
def divergedEffects (calls refr : Nat) (key : String) : PipelineEffects :=
  ⟨[], none, [], [], calls, refr, key, false, true, false⟩

/-- Effects of an early-failure branch that writes one terminal status. -/
def failEffects (hasQueue : Bool) (st : String) (calls refr : Nat) (key : String) :
    PipelineEffects :=
  ⟨statusIf hasQueue st, none, [], [], calls, refr, key, false, false, false⟩

/-- The tail of `check_and_process_task` (lines 917-1010): store the
`msg_resposta` list and its length on the Request Record when the queue
handle is available and the list is non-empty, run the Dispatch Pipeline,
then set the final status `completed` / `message_send_failed`. -/
def dispatch_and_finalize (isConfigured : Bool) (gw : Nat → Bool) (hasQueue : Bool)
    (td : TaskData) (calls refr : Nat) (key : String) : PipelineEffects :=
  let stored :=
    match td.result with
    | some r =>
      if hasQueue && !r.msg_resposta.isEmpty then
        some (r.msg_resposta, r.msg_resposta.length)
      else none
    | none => none
  let d := process_task_response isConfigured gw td
  { statusUpdates := statusIf hasQueue (if d.ok then "completed" else "message_send_failed")
    storedMessages := stored
    sendsAttempted := d.sendsAttempted
    history := d.history
    checkCalls := calls
    refreshes := refr
    apiKeyAfter := key
    fallbackUsedInMemory := d.fallbackUsed
    diverged := false
    returned := d.ok }

/-- `SalesBuilderStatusChecker.check_and_process_task`
(`sales_builder_status_checker.py` lines 754-1040).  `s1` feeds the first
`check_task_status` call, `s2` the (at most one) retry after an API-key
refresh.  `apiKey` is the checker's current `SALES_BUILDER_API_KEY` and
`altKey` the environment's `SALES_BUILDER_API_KEY_ALT`; faithful to the
source, the 403 branch only tests the *truthiness* of `altKey`
(`if alt_api_key:`) and never compares it with `apiKey`.
(The `if not task_data` branch of the source is unreachable: every
`check_task_status` return value is a non-empty dict.) -/
def check_and_process_task (mr : Nat) (taskId apiKey : String) (s1 s2 : List Probe)
    (altKey : Option String) (isConfigured : Bool) (gw : Nat → Bool)
    (hasQueue : Bool) : PipelineEffects :=
  let t1 := check_task_status taskId mr s1
  match t1.result with
  | none => divergedEffects 1 0 apiKey
  | some td =>
    match td.error with
    | some e =>
      if strContains e "403" then
        match altKey with
        | some k =>
          if k ≠ "" then
            -- refresh: `self.api_key = alt_api_key`, rebuild the client, retry once
            let t2 := check_task_status taskId mr s2
            match t2.result with
            | none => divergedEffects 2 1 k
            | some td2 =>
              if td2.error.isSome then failEffects hasQueue "api_key_error" 2 1 k
              else dispatch_and_finalize isConfigured gw hasQueue td2 2 1 k
          else failEffects hasQueue "api_key_error" 1 0 apiKey
        | none => failEffects hasQueue "api_key_error" 1 0 apiKey
      else failEffects hasQueue "task_check_error" 1 0 apiKey
    | none => dispatch_and_finalize isConfigured gw hasQueue td 1 0 apiKey

/-- The module-level `process_sales_builder_task` (lines 1043-1193) for a run
in which no exception escapes: with a queue handle it first sets the statuses
`task_processing_started` and `checking_task_status`, runs
`check_and_process_task`, and afterwards unconditionally sets the status
`task_processing_completed` (line 1140) — whatever status the inner call left
behind.  If the inner poll never returns, the final update never runs. -/
def process_sales_builder_task (mr : Nat) (taskId apiKey : String) (s1 s2 : List Probe)
    (altKey : Option String) (isConfigured : Bool) (gw : Nat → Bool)
    (hasQueue : Bool) : PipelineEffects :=
  let inner := check_and_process_task mr taskId apiKey s1 s2 altKey isConfigured gw hasQueue
  if hasQueue then
    if inner.diverged then
      { inner with statusUpdates :=
          "task_processing_started" :: "checking_task_status" :: inner.statusUpdates }
    else
      { inner with statusUpdates :=
          "task_processing_started" :: "checking_task_status" ::
            (inner.statusUpdates ++ ["task_processing_completed"]) }
  else inner

/-- `suff` is a suffix of `s`. -/
def strEndsWith (s suff : String) : Bool :=
  suff.data.reverse.isPrefixOf s.data.reverse

/-- The terminal status tags of the Request Record state machine (spec §4.3):
`duplicate`, `completed`, and every `*_error` / `*_failed` / `*_exception`
tag. -/
def isTerminalStatus (s : String) : Bool :=
  s == "duplicate" || s == "completed" || strEndsWith s "_error"
    || strEndsWith s "_failed" || strEndsWith s "_exception"

/-! ## The `/submit-form/` endpoint (`main.py`) -/

/-- The validated form payload (`FormSubmission` in `main.py`). -/
structure FormSubmission where
  nome_prospect : String
  email_prospect : String
  whatsapp_prospect : String
  empresa_prospect : String
  faturamento_empresa : String
  cargo_prospect : String
  api_key : String
deriving DecidableEq, Repr

/-- One document of the Lead collection (`crm_db`), as inserted by
`submit_form` lines 547-556. -/
structure LeadDoc where
  id : String
  whatsapp_prospect : String
  nome_prospect : String
  empresa_prospect : String
  email_prospect : String
  cargo_prospect : String
  faturamento_empresa : String
  pipe_stage : String
  spiced_stage : String
deriving DecidableEq, Repr

/-- The dict `call_sales_builder_api` returns: an `error` key on any failure,
otherwise the parsed 200 body, from which `submit_form` reads `task_id`. -/
structure SBApiResponse where
  error : Option String
  task_id : Option String
deriving DecidableEq, Repr

/-- The JSON body a successful (HTTP 201) `submit_form` call returns. -/
structure SubmitOkBody where
  message : String
  document_id : String
  is_duplicate : Bool
  sales_builder_task_id : Option String
  request_id : String
  warning : Option String
deriving DecidableEq, Repr

/-- The endpoint outcome: an `HTTPException` with a status code and detail,
or the 201 body. -/
inductive SubmitOutcome where
  | httpError (code : Nat) (detail : String)
  | ok (body : SubmitOkBody)
deriving DecidableEq, Repr

/-- The HTTP status the client observes. -/
def SubmitOutcome.statusCode : SubmitOutcome → Nat
  | .httpError c _ => c
  | .ok _ => 201

/-- Everything one `submit_form` call did: the outcome, the Lead document
inserted into the collection (if any), whether `call_sales_builder_api` was
invoked, whether the background `process_sales_builder_task` task was
spawned, and the ordered list of `status` values written to the Request
Record (empty = no record was created). -/
structure SubmitEffects where
  outcome : SubmitOutcome
  leadInserted : Option LeadDoc
  salesBuilderCalled : Bool
  pollerStarted : Bool
  recordStatuses : List String
deriving DecidableEq, Repr

/-- `submit_form` (`main.py` lines 450-878) for runs in which the database
calls themselves do not throw.  In source order:
  * reject a wrong API key with 401 (outside the `try`);
  * clean the number; when it fails `^[1-9]\d{1,14}$` the
    `HTTPException(422, ...)` raised inside the `try` block is caught by the
    generic `except Exception` handler (line 873) and re-raised as a 500
    whose detail wraps `str(e)` = `"422: <detail>"` — no Request Record is
    created yet at that point;
  * create the Request Record with status `received`;
  * duplicate check: an existing Lead with the cleaned number short-circuits
    with status `duplicate` and the existing document id, inserting nothing
    and calling nothing;
  * otherwise insert the Lead (`stored`), call the Sales Builder
    (`calling_sales_builder`, `sales_builder_response_received`) and, when a
    truthy `task_id` came back, either stop at
    `evolution_api_config_missing` or reach `processing_task` and spawn the
    Task Poller. -/
def submit_form (settingsApiKey : String) (leads : List LeadDoc)
    (newLeadId reqId : String) (sb : SBApiResponse) (evoConfigured : Bool)
    (form : FormSubmission) : SubmitEffects :=
  if form.api_key ≠ settingsApiKey then
    ⟨.httpError 401 "Chave API inválida", none, false, false, []⟩
  else
    let clean := clean_whatsapp_number form.whatsapp_prospect
    if !matches_whatsapp_regex clean then
      ⟨.httpError 500
        "Erro ao processar formulário: 422: Número de WhatsApp inválido mesmo após limpeza. Deve conter apenas dígitos.",
       none, false, false, []⟩
    else
      match leads.find? (fun l => l.whatsapp_prospect == clean) with
      | some existing =>
        ⟨.ok ⟨"Lead já existe no banco de dados", existing.id, true, none, reqId, none⟩,
         none, false, false, ["received", "duplicate"]⟩
      | none =>
        let doc : LeadDoc :=
          { id := newLeadId, whatsapp_prospect := clean
            nome_prospect := form.nome_prospect
            empresa_prospect := form.empresa_prospect
            email_prospect := form.email_prospect
            cargo_prospect := form.cargo_prospect
            faturamento_empresa := form.faturamento_empresa
            pipe_stage := "fit_to_rapport", spiced_stage := "P1" }
        let baseStatuses :=
          ["received", "stored", "calling_sales_builder", "sales_builder_response_received"]
        match sb.task_id with
        | some tid =>
          if tid = "" then
            -- falsy task_id: skip the whole `if task_id:` block
            ⟨.ok ⟨"Formulário recebido com sucesso", newLeadId, false, some tid, reqId, none⟩,
             some doc, true, false, baseStatuses⟩
          else if !evoConfigured then
            ⟨.ok ⟨"Formulário recebido com sucesso", newLeadId, false, some tid, reqId,
                some "Processamento da task pulado devido a configurações incompletas da Evolution API"⟩,
             some doc, true, false, baseStatuses ++ ["evolution_api_config_missing"]⟩
          else
            ⟨.ok ⟨"Formulário recebido com sucesso", newLeadId, false, some tid, reqId, none⟩,
             some doc, true, true, baseStatuses ++ ["processing_task"]⟩
        | none =>
          ⟨.ok ⟨"Formulário recebido com sucesso", newLeadId, false, none, reqId, none⟩,
           some doc, true, false, baseStatuses⟩

example :
    (submit_form "k" [] "L1" "R1" ⟨none, some "t1"⟩ true
      ⟨"N", "e@x.com", "+55 11 98765-4321", "E", "1-5", "C", "k"⟩).pollerStarted = true := by
  decide

example :
    (submit_form "k" [⟨"id0", "5511987654321", "A", "B", "c@x.com", "D", "E", "fit_to_rapport", "P1"⟩]
      "L1" "R1" ⟨none, some "t1"⟩ true
      ⟨"N", "e@x.com", "+55 11 98765-4321", "E", "1-5", "C", "k"⟩).recordStatuses =
      ["received", "duplicate"] := by decide

example :
    (submit_form "k" [] "L1" "R1" ⟨none, some "t1"⟩ true
      ⟨"N", "e@x.com", "0123", "E", "1-5", "C", "k"⟩).outcome.statusCode = 500 := by decide

example : isTerminalStatus "api_key_error" = true := by decide
example : isTerminalStatus "message_send_failed" = true := by decide
example : isTerminalStatus "task_processing_completed" = false := by decide
example : isTerminalStatus "checking_task_status" = false := by decide

example :
    (check_and_process_task 20 "t" "K" [Probe.http 200 ⟨some "t", some ⟨some "55", ["a"]⟩⟩] []
      none true (fun _ => true) true).statusUpdates = ["completed"] := by decide

example :
    (process_sales_builder_task 20 "t" "K" [Probe.http 200 ⟨some "t", some ⟨some "55", ["a"]⟩⟩] []
      none true (fun _ => true) true).statusUpdates =
      ["task_processing_started", "checking_task_status", "completed",
       "task_processing_completed"] := by decide

example :
    (check_and_process_task 20 "t" "K" [Probe.http 403 ⟨some "t", none⟩]
      [Probe.http 403 ⟨some "t", none⟩] (some "K") true (fun _ => true) true) =
      { statusUpdates := ["api_key_error"], storedMessages := none,
        sendsAttempted := [], history := [], checkCalls := 2, refreshes := 1,
        apiKeyAfter := "K", fallbackUsedInMemory := false, diverged := false,
        returned := false } := by
  decide

/-! ## Helper lemmas -/

lemma pyIsDigit_ne_empty {w : String} (h : pyIsDigit w = true) : w ≠ "" := by
  intro he
  subst he
  exact absurd h (by decide)

/-- The attempted sends of `send_loop` are one per non-empty entry, in list
order. -/
lemma send_loop_fst (gw : Nat → Bool) (w : String) :
    ∀ (msgs : List String) (k : Nat),
      (send_loop gw w msgs k).1 =
        (msgs.filter (fun m => !(m == ""))).map (fun m => (w, m)) := by
  intro msgs
  induction msgs with
  | nil => intro k; simp [send_loop]
  | cons m rest ih =>
    intro k
    by_cases hm : m = ""
    · simp [send_loop, hm, ih k]
    · simp [send_loop, hm, ih (k + 1)]

/-- `process_task_response` on an error-free payload with a truthy task id, a
non-empty message list and an already-digits-only recipient runs the send
loop directly. -/
lemma process_task_response_nonempty (gw : Nat → Bool) (tid w : String)
    (msgs : List String) (sc : Option Nat)
    (htid : tid ≠ "") (hmsgs : msgs ≠ []) (hw : pyIsDigit w = true) :
    process_task_response true gw
        { error := none, task_id := some tid, result := some ⟨some w, msgs⟩
          status_code := sc, fallback_messages_used := false } =
      ⟨(send_loop gw w msgs 0).2.2, (send_loop gw w msgs 0).1,
       (send_loop gw w msgs 0).2.1, false,
       { error := none, task_id := some tid, result := some ⟨some w, msgs⟩
         status_code := sc, fallback_messages_used := false }⟩ := by
  have hwne : w ≠ "" := pyIsDigit_ne_empty hw
  unfold process_task_response process_task_response.dispatchSend
  simp [htid, hmsgs, hw, hwne]

/-- The not-ready branch of `check_task_status` (any non-200, non-403
response): the loop consumes probe after probe without ever touching the
`retries` counter, sleeping, or returning. -/
lemma check_aux_not_ready (taskId : String) (mr code : Nat) (b : ResponseBody)
    (h200 : code ≠ 200) (h403 : code ≠ 403) :
    ∀ (n retries probes sleeps : Nat), retries < mr →
      check_task_status_aux taskId mr (List.replicate n (Probe.http code b))
          retries probes sleeps =
        { result := none, probes := probes + n, sleeps := sleeps, retries := retries } := by
  intro n
  induction n with
  | zero =>
    intro retries probes sleeps h
    simp [check_task_status_aux, Nat.not_le.mpr h]
  | succ n ih =>
    intro retries probes sleeps h
    rw [List.replicate_succ]
    rw [check_task_status_aux]
    rw [if_neg (Nat.not_le.mpr h), if_neg h200, if_neg h403]
    rw [ih retries (probes + 1) sleeps h]
    simp only [PollTrace.mk.injEq, and_true, true_and]
    omega

/-- A run of the poll loop over a non-empty block of 200-with-empty-list
responses that exactly exhausts the remaining budget returns the last body
(with `status_code` added) and sleeps between consecutive probes only. -/
lemma check_aux_empty200 (taskId : String) (mr : Nat) :
    ∀ (bs : List ResponseBody) (retries probes sleeps : Nat),
      bs ≠ [] → (∀ b ∈ bs, hasMessages b = false) → retries + bs.length = mr →
      check_task_status_aux taskId mr (bs.map (Probe.http 200 ·)) retries probes sleeps =
        { result := (bs.getLast?).map (fun b => okData b 200)
          probes := probes + bs.length
          sleeps := sleeps + (bs.length - 1)
          retries := mr } := by
  intro bs
  induction bs with
  | nil => intro _ _ _ h; exact absurd rfl h
  | cons b bs ih =>
    intro retries probes sleeps _ hempty hlen
    have hblt : retries < mr := by
      simp only [List.length_cons] at hlen
      omega
    have hb : hasMessages b = false := hempty b (by simp)
    cases bs with
    | nil =>
      simp only [List.length_cons, List.length_nil] at hlen
      simp only [List.map_cons, List.map_nil]
      rw [check_task_status_aux]
      rw [if_neg (Nat.not_le.mpr hblt), if_pos rfl, hb]
      rw [if_neg (by simp), if_pos (by omega)]
      simp only [List.getLast?_singleton, Option.map_some', List.length_cons,
        List.length_nil, PollTrace.mk.injEq, and_true, true_and]
      omega
    | cons b' bs' =>
      have hlt : retries + 1 < mr := by
        simp only [List.length_cons] at hlen
        omega
      simp only [List.map_cons]
      rw [check_task_status_aux]
      rw [if_neg (Nat.not_le.mpr hblt), if_pos rfl, hb]
      rw [if_neg (by simp), if_neg (Nat.not_le.mpr hlt)]
      rw [show Probe.http 200 b' :: List.map (fun x => Probe.http 200 x) bs' =
            List.map (fun x => Probe.http 200 x) (b' :: bs') from rfl]
      rw [ih (retries + 1) (probes + 1) (sleeps + 1)
            (by simp) (fun x hx => hempty x (by simp [hx]))
            (by simp only [List.length_cons] at hlen ⊢; omega)]
      have hlast : (b :: b' :: bs').getLast? = (b' :: bs').getLast? :=
        List.getLast?_cons_cons ..
      simp only [List.length_cons] at hlen ⊢
      rw [hlast]
      simp only [PollTrace.mk.injEq, and_true, true_and]
      omega

/-! ## The claims -/

/-- Claim C1: for every recipient identifier already present as a Lead,
resubmitting the form with that identifier inserts no new Lead, does not
call the Sales Builder kickoff, does not start the Task Poller, and returns
a duplicate-marked response carrying the existing Lead's id; a Request
Record is still created and its final status is `duplicate`. -/
theorem C1_duplicate_short_circuit
    (settingsApiKey : String) (leads : List LeadDoc) (newLeadId reqId : String)
    (sb : SBApiResponse) (evoConfigured : Bool) (form : FormSubmission) (ex : LeadDoc)
    (hkey : form.api_key = settingsApiKey)
    (hvalid : matches_whatsapp_regex (clean_whatsapp_number form.whatsapp_prospect) = true)
    (hfound : leads.find?
        (fun l => l.whatsapp_prospect == clean_whatsapp_number form.whatsapp_prospect) =
      some ex) :
    submit_form settingsApiKey leads newLeadId reqId sb evoConfigured form =
      { outcome := .ok ⟨"Lead já existe no banco de dados", ex.id, true, none, reqId, none⟩
        leadInserted := none
        salesBuilderCalled := false
        pollerStarted := false
        recordStatuses := ["received", "duplicate"] } := by
  unfold submit_form
  simp [hkey, hvalid, hfound]

/-- Witness for C1 at a concrete duplicate submission. -/
theorem C1_duplicate_short_circuit_witness :
    submit_form "k"
        [⟨"id0", "5511987654321", "A", "B", "c@x.com", "D", "E", "fit_to_rapport", "P1"⟩]
        "L1" "R1" ⟨none, some "t1"⟩ true
        ⟨"N", "e@x.com", "+55 11 98765-4321", "E", "1-5", "C", "k"⟩ =
      { outcome := .ok ⟨"Lead já existe no banco de dados", "id0", true, none, "R1", none⟩
        leadInserted := none
        salesBuilderCalled := false
        pollerStarted := false
        recordStatuses := ["received", "duplicate"] } :=
  C1_duplicate_short_circuit "k"
    [⟨"id0", "5511987654321", "A", "B", "c@x.com", "D", "E", "fit_to_rapport", "P1"⟩]
    "L1" "R1" ⟨none, some "t1"⟩ true
    ⟨"N", "e@x.com", "+55 11 98765-4321", "E", "1-5", "C", "k"⟩
    ⟨"id0", "5511987654321", "A", "B", "c@x.com", "D", "E", "fit_to_rapport", "P1"⟩
    rfl (by decide) (by decide)

/-- Claim C2 (refuted — evaluation of the code at the failing scenario): a
status source that answers every probe with the same non-200, non-403
status keeps the `while` loop of `check_task_status` running forever — after
consuming `n` probes, for any `n`, the call has not returned, the `retries`
counter is still 0 and not a single retry delay was awaited, for every
positive attempt budget `mr + 1`. -/
theorem C2_not_ready_is_unbounded_busy_loop (taskId : String) (mr n code : Nat)
    (b : ResponseBody) (h200 : code ≠ 200) (h403 : code ≠ 403) :
    check_task_status taskId (mr + 1) (List.replicate n (Probe.http code b)) =
      { result := none, probes := n, sleeps := 0, retries := 0 } := by
  have h := check_aux_not_ready taskId (mr + 1) code b h200 h403 n 0 0 0 (Nat.succ_pos mr)
  simpa [check_task_status] using h

/-- Witness for C2's refutation: 1000 consecutive HTTP 500 answers under the
default budget of 20 leave the poller still looping with zero retries
counted. -/
theorem C2_not_ready_is_unbounded_busy_loop_witness :
    check_task_status "t" 20 (List.replicate 1000 (Probe.http 500 ⟨none, none⟩)) =
      { result := none, probes := 1000, sleeps := 0, retries := 0 } :=
  C2_not_ready_is_unbounded_busy_loop "t" 19 1000 500 ⟨none, none⟩
    (by decide) (by decide)

/-- Claim C8: when the attempt budget is exhausted while every 200 response
carried an empty message list, `check_task_status` returns the last (empty)
response payload, tagged with `status_code = 200`, as a non-error result. -/
theorem C8_budget_exhausted_returns_empty_payload (taskId : String) (mr : Nat)
    (bs : List ResponseBody)
    (hne : bs ≠ []) (hempty : ∀ b ∈ bs, hasMessages b = false)
    (hlen : bs.length = mr) :
    ∃ b, bs.getLast? = some b ∧
      check_task_status taskId mr (bs.map (Probe.http 200 ·)) =
        { result := some (okData b 200), probes := mr, sleeps := mr - 1, retries := mr } ∧
      (okData b 200).error = none ∧ (okData b 200).status_code = some 200 := by
  obtain ⟨b, hb⟩ : ∃ b, bs.getLast? = some b := by
    cases bs with
    | nil => exact absurd rfl hne
    | cons x xs => exact ⟨_, List.getLast?_eq_getLast _ (by simp)⟩
  refine ⟨b, hb, ?_, rfl, rfl⟩
  have h := check_aux_empty200 taskId mr bs 0 0 0 hne hempty (by simpa using hlen)
  rw [check_task_status, h, hb]
  simp [hlen]

/-- Witness for C8: budget 2, both probes 200-with-empty-list. -/
theorem C8_budget_exhausted_returns_empty_payload_witness :
    ∃ b, [(⟨some "t", some ⟨some "55", []⟩⟩ : ResponseBody),
          ⟨some "t", some ⟨some "55", []⟩⟩].getLast? = some b ∧
      check_task_status "t" 2
          ([(⟨some "t", some ⟨some "55", []⟩⟩ : ResponseBody),
            ⟨some "t", some ⟨some "55", []⟩⟩].map (Probe.http 200 ·)) =
        { result := some (okData b 200), probes := 2, sleeps := 1, retries := 2 } ∧
      (okData b 200).error = none ∧ (okData b 200).status_code = some 200 :=
  C8_budget_exhausted_returns_empty_payload "t" 2 _
    (by decide) (by decide) (by decide)

/-- Claim C9: recipient normalization in the Dispatch Pipeline:
`"+55 11 98765-4321"` is stripped to `"5511987654321"` and the message is
sent to the stripped number, whereas `"abc"` (empty after stripping) makes
`process_task_response` fail with no send attempted. -/
theorem C9_recipient_normalization (gw : Nat → Bool) :
    clean_whatsapp_number "+55 11 98765-4321" = "5511987654321" ∧
    (process_task_response true gw
        (okData ⟨some "t", some ⟨some "+55 11 98765-4321", ["hello"]⟩⟩ 200)).sendsAttempted =
      [("5511987654321", "hello")] ∧
    (process_task_response true gw
        (okData ⟨some "t", some ⟨some "abc", ["hello"]⟩⟩ 200)).ok = false ∧
    (process_task_response true gw
        (okData ⟨some "t", some ⟨some "abc", ["hello"]⟩⟩ 200)).sendsAttempted = [] := by
  have hA : pyIsDigit "+55 11 98765-4321" = false := by decide
  have hB : clean_whatsapp_number "+55 11 98765-4321" = "5511987654321" := by decide
  have hC : pyIsDigit "5511987654321" = true := by decide
  have hD : pyIsDigit "abc" = false := by decide
  have hE : clean_whatsapp_number "abc" = "" := by decide
  have hF : pyIsDigit "" = false := by decide
  have hG : ("+55 11 98765-4321" : String) ≠ "" := by decide
  have hH : ("abc" : String) ≠ "" := by decide
  have hI : ("hello" : String) ≠ "" := by decide
  have hJ : ("t" : String) ≠ "" := by decide
  refine ⟨by decide, ?_, ?_, ?_⟩
  · unfold process_task_response process_task_response.dispatchSend
    simp [okData, send_loop, hA, hB, hC, hG, hI, hJ]
  · unfold process_task_response process_task_response.dispatchSend
    simp [okData, hD, hE, hF, hH, hJ]
  · unfold process_task_response process_task_response.dispatchSend
    simp [okData, hD, hE, hF, hH, hJ]

/-- A first probe that answers 200 with messages resolves the poll
immediately. -/
lemma check_single_ready (taskId : String) (mr : Nat) (b : ResponseBody) (s : List Probe)
    (hmr : 0 < mr) (hb : hasMessages b = true) :
    check_task_status taskId mr (Probe.http 200 b :: s) =
      { result := some (okData b 200), probes := 1, sleeps := 0, retries := 0 } := by
  rw [check_task_status, check_task_status_aux]
  rw [if_neg (Nat.not_le.mpr hmr), if_pos rfl, hb]
  simp

/-- `check_and_process_task` on a first probe that is 200-with-messages goes
straight to the store-and-dispatch tail. -/
lemma capt_ready_eval (mr : Nat) (taskId apiKey tid w : String) (msgs : List String)
    (s2 : List Probe) (altKey : Option String) (isConfigured : Bool) (gw : Nat → Bool)
    (hq : Bool) (hmr : 0 < mr) (hmsgs : msgs ≠ []) :
    check_and_process_task mr taskId apiKey
        [Probe.http 200 ⟨some tid, some ⟨some w, msgs⟩⟩] s2 altKey isConfigured gw hq =
      dispatch_and_finalize isConfigured gw hq
        (okData ⟨some tid, some ⟨some w, msgs⟩⟩ 200) 1 0 apiKey := by
  have hb : hasMessages ⟨some tid, some ⟨some w, msgs⟩⟩ = true := by
    simp [hasMessages, hmsgs]
  unfold check_and_process_task
  rw [check_single_ready taskId mr ⟨some tid, some ⟨some w, msgs⟩⟩ [] hmr hb]
  simp [okData]

/-- Claim C3 (counterexample): with the non-empty message list
`["Oi", ""]` the gateway is invoked only once — the empty-string entry is
skipped by `if message and isinstance(message, str)` — though the stored
`message_count` is 2, so "exactly once per list entry" fails. -/
theorem C3_counterexample_empty_entry_skipped :
    (check_and_process_task 20 "t" "K"
        [Probe.http 200 ⟨some "t", some ⟨some "5511999999999", ["Oi", ""]⟩⟩]
        [] none true (fun _ => true) true).sendsAttempted = [("5511999999999", "Oi")] ∧
    (check_and_process_task 20 "t" "K"
        [Probe.http 200 ⟨some "t", some ⟨some "5511999999999", ["Oi", ""]⟩⟩]
        [] none true (fun _ => true) true).storedMessages = some (["Oi", ""], 2) ∧
    ¬ ((check_and_process_task 20 "t" "K"
        [Probe.http 200 ⟨some "t", some ⟨some "5511999999999", ["Oi", ""]⟩⟩]
        [] none true (fun _ => true) true).sendsAttempted.length =
      (["Oi", ""] : List String).length) := by
  decide

/-- Claim C3 (amended): for every Task Result with a non-empty message list,
the gateway send is invoked exactly once per **non-empty** list entry, in
list order, and the Request Record's stored `message_count` equals the
length of the full list. -/
theorem C3_sends_once_per_nonempty_entry (mr : Nat) (taskId apiKey tid w : String)
    (msgs : List String) (s2 : List Probe) (altKey : Option String) (gw : Nat → Bool)
    (hmr : 0 < mr) (htid : tid ≠ "") (hmsgs : msgs ≠ []) (hw : pyIsDigit w = true) :
    (check_and_process_task mr taskId apiKey
        [Probe.http 200 ⟨some tid, some ⟨some w, msgs⟩⟩] s2 altKey true gw
        true).sendsAttempted =
      (msgs.filter (fun m => !(m == ""))).map (fun m => (w, m)) ∧
    (check_and_process_task mr taskId apiKey
        [Probe.http 200 ⟨some tid, some ⟨some w, msgs⟩⟩] s2 altKey true gw
        true).storedMessages = some (msgs, msgs.length) := by
  rw [capt_ready_eval mr taskId apiKey tid w msgs s2 altKey true gw true hmr hmsgs]
  unfold dispatch_and_finalize
  rw [show okData ⟨some tid, some ⟨some w, msgs⟩⟩ 200 =
        { error := none, task_id := some tid, result := some ⟨some w, msgs⟩
          status_code := some 200, fallback_messages_used := false } from rfl]
  rw [process_task_response_nonempty gw tid w msgs (some 200) htid hmsgs hw]
  refine ⟨send_loop_fst gw w msgs 0, ?_⟩
  simp [hmsgs]

/-- Witness for C3's amended theorem: three entries, one of them empty. -/
theorem C3_sends_once_per_nonempty_entry_witness :
    (check_and_process_task 20 "t" "K"
        [Probe.http 200 ⟨some "t", some ⟨some "55119", ["a", "", "b"]⟩⟩]
        [] none true (fun _ => true) true).sendsAttempted =
      ((["a", "", "b"] : List String).filter (fun m => !(m == ""))).map
        (fun m => ("55119", m)) ∧
    (check_and_process_task 20 "t" "K"
        [Probe.http 200 ⟨some "t", some ⟨some "55119", ["a", "", "b"]⟩⟩]
        [] none true (fun _ => true) true).storedMessages =
      some (["a", "", "b"], 3) :=
  C3_sends_once_per_nonempty_entry 20 "t" "K" "t" "55119" ["a", "", "b"] [] none
    (fun _ => true) (by decide) (by decide) (by decide) (by decide)

/-- Claim C4 (evaluation at the failing input): when every probe up to the
budget answers 200 with an empty list, the Dispatch Pipeline does substitute
and send exactly the two fallback messages and flags the **in-memory**
response dict (`fallback_messages_used`), but nothing of this reaches the
Request Record: the message-storage step ran before the substitution, so
`messages`/`message_count` are never set and the only status written is
`completed` — downstream consumers cannot see that fallback content was
used. -/
theorem C4_fallback_sent_but_not_recorded :
    check_and_process_task 2 "t" "K"
        [Probe.http 200 ⟨some "t", some ⟨some "5511999999999", []⟩⟩,
         Probe.http 200 ⟨some "t", some ⟨some "5511999999999", []⟩⟩]
        [] none true (fun _ => true) true =
      { statusUpdates := ["completed"]
        storedMessages := none
        sendsAttempted := fallback_messages.map (fun m => ("5511999999999", m))
        history := fallback_messages.map (fun m => ("5511999999999", m))
        checkCalls := 1, refreshes := 0, apiKeyAfter := "K"
        fallbackUsedInMemory := true, diverged := false, returned := true } := by
  set_option maxRecDepth 16000 in decide

/-- Claim C5: a gateway failure on message 2 of 3 does not stop messages 1
and 3 from being attempted in order; the successes are recorded in the chat
history, and the status written for the dispatch outcome is
`message_send_failed`, not `completed`. -/
theorem C5_partial_failure_isolation (mr : Nat) (taskId apiKey tid w m1 m2 m3 : String)
    (s2 : List Probe) (altKey : Option String) (gw : Nat → Bool)
    (hmr : 0 < mr) (htid : tid ≠ "") (hw : pyIsDigit w = true)
    (h1 : m1 ≠ "") (h2 : m2 ≠ "") (h3 : m3 ≠ "")
    (g0 : gw 0 = true) (g1 : gw 1 = false) (g2 : gw 2 = true) :
    (check_and_process_task mr taskId apiKey
        [Probe.http 200 ⟨some tid, some ⟨some w, [m1, m2, m3]⟩⟩] s2 altKey true gw
        true).sendsAttempted = [(w, m1), (w, m2), (w, m3)] ∧
    (check_and_process_task mr taskId apiKey
        [Probe.http 200 ⟨some tid, some ⟨some w, [m1, m2, m3]⟩⟩] s2 altKey true gw
        true).history = [(w, m1), (w, m3)] ∧
    (check_and_process_task mr taskId apiKey
        [Probe.http 200 ⟨some tid, some ⟨some w, [m1, m2, m3]⟩⟩] s2 altKey true gw
        true).statusUpdates = ["message_send_failed"] ∧
    (check_and_process_task mr taskId apiKey
        [Probe.http 200 ⟨some tid, some ⟨some w, [m1, m2, m3]⟩⟩] s2 altKey true gw
        true).returned = false := by
  rw [capt_ready_eval mr taskId apiKey tid w [m1, m2, m3] s2 altKey true gw true hmr
        (by simp)]
  unfold dispatch_and_finalize
  rw [show okData ⟨some tid, some ⟨some w, [m1, m2, m3]⟩⟩ 200 =
        { error := none, task_id := some tid, result := some ⟨some w, [m1, m2, m3]⟩
          status_code := some 200, fallback_messages_used := false } from rfl]
  rw [process_task_response_nonempty gw tid w [m1, m2, m3] (some 200) htid (by simp) hw]
  simp [send_loop, h1, h2, h3, g0, g1, g2, statusIf]

/-- Witness for C5 at a concrete three-message run. -/
theorem C5_partial_failure_isolation_witness :
    (check_and_process_task 20 "t" "K"
        [Probe.http 200 ⟨some "t", some ⟨some "55119", ["a", "b", "c"]⟩⟩]
        [] none true (fun k => !(k == 1)) true).sendsAttempted =
      [("55119", "a"), ("55119", "b"), ("55119", "c")] ∧
    (check_and_process_task 20 "t" "K"
        [Probe.http 200 ⟨some "t", some ⟨some "55119", ["a", "b", "c"]⟩⟩]
        [] none true (fun k => !(k == 1)) true).history =
      [("55119", "a"), ("55119", "c")] ∧
    (check_and_process_task 20 "t" "K"
        [Probe.http 200 ⟨some "t", some ⟨some "55119", ["a", "b", "c"]⟩⟩]
        [] none true (fun k => !(k == 1)) true).statusUpdates =
      ["message_send_failed"] ∧
    (check_and_process_task 20 "t" "K"
        [Probe.http 200 ⟨some "t", some ⟨some "55119", ["a", "b", "c"]⟩⟩]
        [] none true (fun k => !(k == 1)) true).returned = false :=
  C5_partial_failure_isolation 20 "t" "K" "t" "55119" "a" "b" "c" [] none
    (fun k => !(k == 1)) (by decide) (by decide) (by decide) (by decide) (by decide)
    (by decide) (by decide) (by decide) (by decide)

/-- Claim C7 (counterexample): the alternative token `SALES_BUILDER_API_KEY_ALT`
is `"K"`, identical to the checker's previous token `"K"`, yet the code still
performs the retry probe (`check_task_status` is invoked twice): the 403
branch only tests `if alt_api_key:` and never compares the tokens, so
"retries once ... only if it differs from the previous token" is false. -/
theorem C7_counterexample_retry_despite_unchanged_token :
    check_and_process_task 20 "t" "K" [Probe.http 403 ⟨some "t", none⟩]
        [Probe.http 403 ⟨some "t", none⟩] (some "K") true (fun _ => true) true =
      { statusUpdates := ["api_key_error"], storedMessages := none
        sendsAttempted := [], history := [], checkCalls := 2, refreshes := 1
        apiKeyAfter := "K", fallbackUsedInMemory := false, diverged := false
        returned := false } ∧
    ¬ ((check_and_process_task 20 "t" "K" [Probe.http 403 ⟨some "t", none⟩]
        [Probe.http 403 ⟨some "t", none⟩] (some "K") true (fun _ => true)
        true).checkCalls = 1) := by
  decide

/-- Claim C7 (amended): on a 403-classified failure the pipeline performs
exactly one credential refresh, re-reading the alternative token
`SALES_BUILDER_API_KEY_ALT`; it retries once with that token whenever it is
configured and non-empty — **regardless of whether it differs from the
previous token** — and when the retry also fails it terminates with status
`api_key_error` on the Request Record with no gateway send attempted. -/
theorem C7_auth_failure_refresh_then_api_key_error (mr : Nat)
    (taskId apiKey k e1 e2 : String) (s1 s2 : List Probe)
    (isConfigured : Bool) (gw : Nat → Bool) (td1 td2 : TaskData)
    (h1 : (check_task_status taskId mr s1).result = some td1)
    (h1e : td1.error = some e1) (h403 : strContains e1 "403" = true)
    (hk : k ≠ "")
    (h2 : (check_task_status taskId mr s2).result = some td2)
    (h2e : td2.error = some e2) :
    check_and_process_task mr taskId apiKey s1 s2 (some k) isConfigured gw true =
      { statusUpdates := ["api_key_error"], storedMessages := none
        sendsAttempted := [], history := [], checkCalls := 2, refreshes := 1
        apiKeyAfter := k, fallbackUsedInMemory := false, diverged := false
        returned := false } := by
  unfold check_and_process_task
  simp [h1, h1e, h403, hk, h2, h2e, failEffects, statusIf]

/-- Witness for C7's amended theorem: 403 on both polls, a fresh non-empty
alternative token. -/
theorem C7_auth_failure_refresh_then_api_key_error_witness :
    check_and_process_task 20 "t" "K" [Probe.http 403 ⟨some "t", none⟩]
        [Probe.http 403 ⟨some "t", none⟩] (some "K2") true (fun _ => true) true =
      { statusUpdates := ["api_key_error"], storedMessages := none
        sendsAttempted := [], history := [], checkCalls := 2, refreshes := 1
        apiKeyAfter := "K2", fallbackUsedInMemory := false, diverged := false
        returned := false } :=
  C7_auth_failure_refresh_then_api_key_error 20 "t" "K" "K2"
    "403: Erro de autorização" "403: Erro de autorização"
    [Probe.http 403 ⟨some "t", none⟩] [Probe.http 403 ⟨some "t", none⟩]
    true (fun _ => true)
    (errData "403: Erro de autorização" "t") (errData "403: Erro de autorização" "t")
    (by decide) (by decide) (by decide) (by decide) (by decide) (by decide)

/-- When a `check_and_process_task` run with a queue handle completes (its
polls returned), it writes exactly one status, and that status is
terminal. -/
lemma capt_single_terminal_status (mr : Nat) (taskId apiKey : String)
    (s1 s2 : List Probe) (altKey : Option String) (isConfigured : Bool)
    (gw : Nat → Bool)
    (hdiv : (check_and_process_task mr taskId apiKey s1 s2 altKey isConfigured gw
        true).diverged = false) :
    ∃ t, (check_and_process_task mr taskId apiKey s1 s2 altKey isConfigured gw
        true).statusUpdates = [t] ∧ isTerminalStatus t = true := by
  unfold check_and_process_task at hdiv ⊢
  rcases h1 : (check_task_status taskId mr s1).result with _ | td
  · exfalso
    simp [h1, divergedEffects] at hdiv
  · rcases he : td.error with _ | e
    · by_cases hok : (process_task_response isConfigured gw td).ok
      · exact ⟨"completed",
          by simp [h1, he, dispatch_and_finalize, statusIf, hok], by decide⟩
      · exact ⟨"message_send_failed",
          by simp [h1, he, dispatch_and_finalize, statusIf, hok], by decide⟩
    · by_cases h403 : strContains e "403" = true
      · rcases altKey with _ | k
        · exact ⟨"api_key_error",
            by simp [h1, he, h403, failEffects, statusIf], by decide⟩
        · by_cases hk : k = ""
          · exact ⟨"api_key_error",
              by simp [h1, he, h403, hk, failEffects, statusIf], by decide⟩
          · rcases h2 : (check_task_status taskId mr s2).result with _ | td2
            · exfalso
              simp [h1, he, h403, hk, h2, divergedEffects] at hdiv
            · by_cases h2e : td2.error.isSome
              · exact ⟨"api_key_error",
                  by simp [h1, he, h403, hk, h2, h2e, failEffects, statusIf],
                  by decide⟩
              · by_cases hok : (process_task_response isConfigured gw td2).ok
                · exact ⟨"completed",
                    by simp [h1, he, h403, hk, h2, h2e, dispatch_and_finalize,
                      statusIf, hok],
                    by decide⟩
                · exact ⟨"message_send_failed",
                    by simp [h1, he, h403, hk, h2, h2e, dispatch_and_finalize,
                      statusIf, hok],
                    by decide⟩
      · exact ⟨"task_check_error",
          by simp [h1, he, h403, failEffects, statusIf], by decide⟩

/-- `process_sales_builder_task` with a queue handle: the divergence flag is
the inner one, and on a completed run the status writes are the two wrapper
prologue statuses, the inner statuses, and the unconditional final
`task_processing_completed`. -/
lemma psbt_status_shape (mr : Nat) (taskId apiKey : String) (s1 s2 : List Probe)
    (altKey : Option String) (isConfigured : Bool) (gw : Nat → Bool)
    (hdiv : (check_and_process_task mr taskId apiKey s1 s2 altKey isConfigured gw
        true).diverged = false) :
    (process_sales_builder_task mr taskId apiKey s1 s2 altKey isConfigured gw
        true).statusUpdates =
      "task_processing_started" :: "checking_task_status" ::
        ((check_and_process_task mr taskId apiKey s1 s2 altKey isConfigured gw
            true).statusUpdates ++ ["task_processing_completed"]) := by
  unfold process_sales_builder_task
  simp [hdiv]

/-- Claim C6 (counterexample): a run that dispatches successfully sets the
terminal status `completed` and is immediately followed by the wrapper's
unconditional `task_processing_completed` write — a transition out of a
terminal state. -/
theorem C6_counterexample_terminal_status_overwritten :
    (process_sales_builder_task 20 "t" "K"
        [Probe.http 200 ⟨some "t", some ⟨some "55119", ["a"]⟩⟩]
        [] none true (fun _ => true) true).statusUpdates =
      ["task_processing_started", "checking_task_status", "completed",
       "task_processing_completed"] ∧
    (process_sales_builder_task 20 "t" "K"
        [Probe.http 200 ⟨some "t", some ⟨some "55119", ["a"]⟩⟩]
        [] none true (fun _ => true) true).statusUpdates[2]? = some "completed" ∧
    isTerminalStatus "completed" = true ∧
    (process_sales_builder_task 20 "t" "K"
        [Probe.http 200 ⟨some "t", some ⟨some "55119", ["a"]⟩⟩]
        [] none true (fun _ => true) true).statusUpdates[3]? =
      some "task_processing_completed" ∧
    ("task_processing_completed" : String) ≠ "completed" := by
  decide

/-- Claim C6 (amended): once a terminal status tag has been written, the only
later status write in a completed `process_sales_builder_task` run is the
wrapper's unconditional final `task_processing_completed` (line 1140); no
other value ever replaces a terminal status. -/
theorem C6_terminal_then_only_wrapper_epilogue (mr : Nat) (taskId apiKey : String)
    (s1 s2 : List Probe) (altKey : Option String) (isConfigured : Bool)
    (gw : Nat → Bool) (i j : Nat) (s s' : String)
    (hdiv : (check_and_process_task mr taskId apiKey s1 s2 altKey isConfigured gw
        true).diverged = false)
    (hij : i < j)
    (hi : (process_sales_builder_task mr taskId apiKey s1 s2 altKey isConfigured gw
        true).statusUpdates[i]? = some s)
    (hterm : isTerminalStatus s = true)
    (hj : (process_sales_builder_task mr taskId apiKey s1 s2 altKey isConfigured gw
        true).statusUpdates[j]? = some s') :
    s' = "task_processing_completed" := by
  obtain ⟨t, ht, hterm_t⟩ :=
    capt_single_terminal_status mr taskId apiKey s1 s2 altKey isConfigured gw hdiv
  rw [psbt_status_shape mr taskId apiKey s1 s2 altKey isConfigured gw hdiv, ht]
    at hi hj
  simp only [List.cons_append, List.nil_append] at hi hj
  match i, hi with
  | 0, hi =>
    exfalso
    simp only [List.getElem?_cons_zero, Option.some.injEq] at hi
    rw [← hi] at hterm
    exact absurd hterm (by decide)
  | 1, hi =>
    exfalso
    simp only [List.getElem?_cons_succ, List.getElem?_cons_zero,
      Option.some.injEq] at hi
    rw [← hi] at hterm
    exact absurd hterm (by decide)
  | 2, hi =>
    match j, hij, hj with
    | 3, _, hj =>
      simp only [List.getElem?_cons_succ, List.getElem?_cons_zero,
        Option.some.injEq] at hj
      exact hj.symm
    | n + 4, _, hj =>
      exfalso
      simp [List.getElem?_cons_succ] at hj
  | 3, hi =>
    exfalso
    simp only [List.getElem?_cons_succ, List.getElem?_cons_zero,
      Option.some.injEq] at hi
    rw [← hi] at hterm
    exact absurd hterm (by decide)
  | n + 4, hi =>
    exfalso
    simp [List.getElem?_cons_succ] at hi

/-- Witness for C6's amended theorem: the `completed` status at index 2 is
followed only by `task_processing_completed` at index 3. -/
theorem C6_terminal_then_only_wrapper_epilogue_witness :
    ("task_processing_completed" : String) = "task_processing_completed" :=
  C6_terminal_then_only_wrapper_epilogue 20 "t" "K"
    [Probe.http 200 ⟨some "t", some ⟨some "55119", ["a"]⟩⟩] [] none true
    (fun _ => true) 2 3 "completed" "task_processing_completed"
    (by decide) (by decide) (by decide) (by decide) (by decide)

/-- A digits-only string that starts with `'0'`, is shorter than 2
characters, or longer than 15 characters fails `^[1-9]\d{1,14}$`. -/
lemma matches_whatsapp_regex_false (s : String)
    (h : s.data.head? = some '0' ∨ s.length < 2 ∨ 15 < s.length) :
    matches_whatsapp_regex s = false := by
  unfold matches_whatsapp_regex
  cases hd : s.data with
  | nil => rfl
  | cons c rest =>
    have hlen : s.length = rest.length + 1 := by
      have : s.length = s.data.length := rfl
      rw [this, hd]
      rfl
    rcases h with h0 | hlt | hgt
    · rw [hd] at h0
      simp only [List.head?_cons, Option.some.injEq] at h0
      subst h0
      simp
    · have hr : rest.length = 0 := by omega
      simp [hr]
    · have hr : ¬ (rest.length ≤ 14) := by omega
      simp [hr]

/-- Claim C10 (evaluation at the failing input, and the pattern part of the
claim): after cleaning, a digits-only WhatsApp number that starts with 0,
has fewer than 2 digits, or has more than 15 digits fails the pattern
`^[1-9]\d{1,14}$` and is rejected before anything is stored or called — but
the rejection reaches the client as HTTP **500**, not 422: the
`HTTPException(422, ...)` is raised inside the `try` block whose catch-all
`except Exception` handler re-raises it as a 500 wrapping `str(e)`. -/
theorem C10_invalid_number_rejected_with_500 (settingsApiKey newLeadId reqId : String)
    (leads : List LeadDoc) (sb : SBApiResponse) (evoConfigured : Bool)
    (form : FormSubmission)
    (hkey : form.api_key = settingsApiKey)
    (hdig : pyIsDigit (clean_whatsapp_number form.whatsapp_prospect) = true)
    (hbad : (clean_whatsapp_number form.whatsapp_prospect).data.head? = some '0'
          ∨ (clean_whatsapp_number form.whatsapp_prospect).length < 2
          ∨ 15 < (clean_whatsapp_number form.whatsapp_prospect).length) :
    pyIsDigit (clean_whatsapp_number form.whatsapp_prospect) = true ∧
    matches_whatsapp_regex (clean_whatsapp_number form.whatsapp_prospect) = false ∧
    submit_form settingsApiKey leads newLeadId reqId sb evoConfigured form =
      { outcome := .httpError 500
          "Erro ao processar formulário: 422: Número de WhatsApp inválido mesmo após limpeza. Deve conter apenas dígitos."
        leadInserted := none, salesBuilderCalled := false, pollerStarted := false
        recordStatuses := [] } := by
  have hm := matches_whatsapp_regex_false _ hbad
  refine ⟨hdig, hm, ?_⟩
  unfold submit_form
  simp [hkey, hm]

/-- Witness for C10: the digits-only number `"0123"` (leading zero). -/
theorem C10_invalid_number_rejected_with_500_witness :
    pyIsDigit (clean_whatsapp_number "0123") = true ∧
    matches_whatsapp_regex (clean_whatsapp_number "0123") = false ∧
    submit_form "k" [] "L1" "R1" ⟨none, some "t1"⟩ true
        ⟨"N", "e@x.com", "0123", "E", "1-5", "C", "k"⟩ =
      { outcome := .httpError 500
          "Erro ao processar formulário: 422: Número de WhatsApp inválido mesmo após limpeza. Deve conter apenas dígitos."
        leadInserted := none, salesBuilderCalled := false, pollerStarted := false
        recordStatuses := [] } :=
  C10_invalid_number_rejected_with_500 "k" "L1" "R1" [] ⟨none, some "t1"⟩ true
    ⟨"N", "e@x.com", "0123", "E", "1-5", "C", "k"⟩ rfl (by decide) (by decide)

end Arduus
